import Mathlib

/-!
Verification of the linter registry and tree-walking enforcement engine of
`pkg/build/linter.go`.

Modelling conventions:
* Go `error` values are modelled as `Option String` (`none` = nil error,
  `some msg` = an error whose rendered text is `msg`).  `fmt.Errorf` with
  `%w`/`%s` verbs is modelled as string concatenation in the same format.
* `fs.DirEntry` is modelled by the one capability the code uses: `Info()`,
  which either fails (`Except.error`) or yields a `FileInfo` carrying the
  mode bits.  Go `fs.FileMode` is a `uint32`; we carry it as a `Nat` and
  test bits with `&&&`, using Go's published constants
  `fs.ModeSetuid = 1 <<< 23` and `fs.ModeSetgid = 1 <<< 22`.
* The regular expressions in the source contain no metacharacters other
  than the anchors `^`/`$`, one alternation and one optional group, so
  their matching semantics are exactly prefix/suffix tests:
  `^usr/local/` and `^var/empty/` are prefix tests, `-compat$` is a suffix
  test, and `^(var/)?(tmp|run)/` is a disjunction of the four prefixes
  `tmp/`, `run/`, `var/tmp/`, `var/run/`.  Prefix and suffix tests are
  computed on the underlying character lists.
* `fs.WalkDir` drives the traversal.  We model the filesystem argument by
  the sequence of callback invocations the walk performs: a list of
  `WalkStep`s in walk order, each carrying the relative path, the directory
  entry and the traversal error (non-`none` when the walk itself failed at
  that path).  `fs.WalkDir` always invokes the callback at least once (on
  the root `"."`), and stops at the first non-nil callback result, which it
  returns; `lintPackageFs` folds the callback over the sequence
  accordingly.
-/

/-- Character-list prefix test; the semantics of an anchored `^lit` regex. -/
def strStartsWith (pre s : String) : Bool :=
  pre.data.isPrefixOf s.data

/-- Character-list suffix test; the semantics of an anchored `lit$` regex. -/
def strEndsWith (suf s : String) : Bool :=
  suf.data.isSuffixOf s.data

/-- `s` contains `sub` as a contiguous substring. -/
def strContains (s sub : String) : Prop :=
  ∃ a b : String, s = a ++ sub ++ b

/-- Go `fs.ModeSetuid = 1 << 23`. -/
def ModeSetuid : Nat := 2 ^ 23

/-- Go `fs.ModeSetgid = 1 << 22`. -/
def ModeSetgid : Nat := 2 ^ 22

/-- The part of `fs.FileInfo` the linters read: the mode bits. -/
structure FileInfo where
  Mode : Nat

/-- The part of `fs.DirEntry` the linters use: `Info()`, which can fail. -/
structure DirEntry where
  Info : Except String FileInfo

/-- Placeholder for `config.Configuration` (never read by the linters). -/
structure Configuration : Type where

/-- Placeholder for `config.Checks` (never read by the linters). -/
structure Checks : Type where

/-- `LinterContext` from `linter.go`: package name plus configuration. -/
structure LinterContext where
  pkgname : String
  cfg : Option Configuration
  chk : Option Checks

/-- `Linter` from `linter.go`: the check function and its remediation hint. -/
structure Linter where
  LinterFunc : LinterContext → String → DirEntry → Option String
  Explain : String

/-- `isUsrLocalRegex.MatchString`: the regex `^usr/local/`. -/
def isUsrLocalRegex (path : String) : Bool :=
  strStartsWith "usr/local/" path

/-- `isVarEmptyRegex.MatchString`: the regex `^var/empty/`. -/
def isVarEmptyRegex (path : String) : Bool :=
  strStartsWith "var/empty/" path

/-- `isTempDirRegex.MatchString`: the regex `^(var/)?(tmp|run)/`, expanded
into its four alternatives. -/
def isTempDirRegex (path : String) : Bool :=
  strStartsWith "tmp/" path || strStartsWith "run/" path ||
    strStartsWith "var/tmp/" path || strStartsWith "var/run/" path

/-- `isCompatPackage.MatchString`: the regex `-compat$`. -/
def isCompatPackage (name : String) : Bool :=
  strEndsWith "-compat" name

/-- `usrLocalLinter` from `linter.go`. -/
def usrLocalLinter (lctx : LinterContext) (path : String) (_ : DirEntry) :
    Option String :=
  if isCompatPackage lctx.pkgname then
    none
  else if isUsrLocalRegex path then
    some "/usr/local path found in non-compat package"
  else
    none

/-- `varEmptyLinter` from `linter.go`. -/
def varEmptyLinter (_ : LinterContext) (path : String) (_ : DirEntry) :
    Option String :=
  if isVarEmptyRegex path then
    some "Package writes to /var/empty"
  else
    none

/-- `tempDirLinter` from `linter.go`. -/
def tempDirLinter (_ : LinterContext) (path : String) (_ : DirEntry) :
    Option String :=
  if isTempDirRegex path then
    some "Package writes to a temp dir"
  else
    none

/-- `isSetUidOrGidLinter` from `linter.go`. -/
def isSetUidOrGidLinter (_ : LinterContext) (_ : String) (d : DirEntry) :
    Option String :=
  match d.Info with
  | .error e => some e
  | .ok info =>
    if info.Mode &&& ModeSetuid ≠ 0 then
      some "File is setuid"
    else if info.Mode &&& ModeSetgid ≠ 0 then
      some "File is setgid"
    else
      none

/-- The `Linters` map from `linter.go`, as a presence-checked lookup. -/
def Linters (name : String) : Option Linter :=
  if name = "setuidgid" then
    some ⟨isSetUidOrGidLinter,
      "Unset the setuid/setgid bit on the relevant files, or remove this linter"⟩
  else if name = "tempdir" then
    some ⟨tempDirLinter,
      "Remove any offending files in temporary dirs in the pipeline"⟩
  else if name = "usrlocal" then
    some ⟨usrLocalLinter,
      "This package should be a -compat package"⟩
  else if name = "varempty" then
    some ⟨varEmptyLinter,
      "Remove any offending files in /var/empty in the pipeline"⟩
  else
    none

/-- The `for _, linterName := range linters` loop inside `walkCb`: look each
requested name up, run it, and short-circuit on the first error. -/
def runLinters (lctx : LinterContext) (path : String) (d : DirEntry) :
    List String → Option String
  | [] => none
  | linterName :: rest =>
    match Linters linterName with
    | none => some ("Linter " ++ linterName ++ " is unknown")
    | some linter =>
      match linter.LinterFunc lctx path d with
      | some e =>
        some ("Linter " ++ linterName ++ " failed at path \"" ++ path ++
          "\": " ++ e ++ "; suggest: " ++ linter.Explain)
      | none => runLinters lctx path d rest

/-- The `walkCb` closure inside `lintPackageFs`. -/
def walkCb (lctx : LinterContext) (linters : List String) (path : String)
    (d : DirEntry) (err : Option String) : Option String :=
  match err with
  | some e => some ("Error traversing tree at " ++ path ++ ": " ++ e)
  | none => runLinters lctx path d linters

/-- One callback invocation performed by `fs.WalkDir`: the relative path,
the directory entry, and the traversal error for that path. -/
structure WalkStep where
  path : String
  entry : DirEntry
  err : Option String

/-- `lintPackageFs` from `linter.go`: fold `walkCb` over the walk sequence
of the filesystem, returning the first non-nil callback result
(`fs.WalkDir` stops and returns it), or `none` when the walk completes. -/
def lintPackageFs (lctx : LinterContext) (fsys : List WalkStep)
    (linters : List String) : Option String :=
  match fsys with
  | [] => none
  | step :: rest =>
    match walkCb lctx linters step.path step.entry step.err with
    | some e => some e
    | none => lintPackageFs lctx rest linters

/-- A concrete entry whose metadata reads successfully with no mode bits. -/
def plainEntry : DirEntry := ⟨.ok ⟨0⟩⟩

/-! ### Helper lemmas about the check loop and the walk fold -/

/-- An unknown name aborts the check loop with the "unknown" error. -/
theorem runLinters_cons_unknown {n : String} (lctx : LinterContext)
    (path : String) (d : DirEntry) (rest : List String)
    (hn : Linters n = none) :
    runLinters lctx path d (n :: rest) = some ("Linter " ++ n ++ " is unknown") := by
  simp [runLinters, hn]

/-- A failing check aborts the loop with the wrapped error. -/
theorem runLinters_cons_fail {n : String} {l : Linter} {e : String}
    (lctx : LinterContext) (path : String) (d : DirEntry) (rest : List String)
    (hn : Linters n = some l) (hf : l.LinterFunc lctx path d = some e) :
    runLinters lctx path d (n :: rest) =
      some ("Linter " ++ n ++ " failed at path \"" ++ path ++ "\": " ++ e ++
        "; suggest: " ++ l.Explain) := by
  simp [runLinters, hn, hf]

/-- A passing check lets the loop continue with the remaining names. -/
theorem runLinters_cons_pass {n : String} {l : Linter}
    (lctx : LinterContext) (path : String) (d : DirEntry) (rest : List String)
    (hn : Linters n = some l) (hf : l.LinterFunc lctx path d = none) :
    runLinters lctx path d (n :: rest) = runLinters lctx path d rest := by
  simp [runLinters, hn, hf]

/-- If a block of checks all pass, the loop skips past it. -/
theorem runLinters_append_of_none {l1 : List String}
    (lctx : LinterContext) (path : String) (d : DirEntry) (l2 : List String)
    (h : runLinters lctx path d l1 = none) :
    runLinters lctx path d (l1 ++ l2) = runLinters lctx path d l2 := by
  induction l1 with
  | nil => rfl
  | cons n rest ih =>
    cases hn : Linters n with
    | none => rw [runLinters_cons_unknown lctx path d rest hn] at h; cases h
    | some l =>
      cases hf : l.LinterFunc lctx path d with
      | some e => rw [runLinters_cons_fail lctx path d rest hn hf] at h; cases h
      | none =>
        rw [runLinters_cons_pass lctx path d rest hn] at h
        rw [List.cons_append, runLinters_cons_pass lctx path d (rest ++ l2) hn hf]
        · exact ih h
        · exact hf

/-- A check list containing an unknown name never completes cleanly. -/
theorem runLinters_isSome_of_unknown {bad : String} {names : List String}
    (lctx : LinterContext) (path : String) (d : DirEntry)
    (hmem : bad ∈ names) (hbad : Linters bad = none) :
    (runLinters lctx path d names).isSome = true := by
  induction names with
  | nil => cases hmem
  | cons n rest ih =>
    cases hn : Linters n with
    | none => rw [runLinters_cons_unknown lctx path d rest hn]; rfl
    | some l =>
      cases hf : l.LinterFunc lctx path d with
      | some e => rw [runLinters_cons_fail lctx path d rest hn hf]; rfl
      | none =>
        rw [runLinters_cons_pass lctx path d rest hn hf]
        rcases List.mem_cons.mp hmem with hbn | hmem2
        · rw [hbn] at hbad; rw [hbad] at hn; cases hn
        · exact ih hmem2

/-- A step whose callback errors makes the walk return that error. -/
theorem lintPackageFs_cons_fail {s : WalkStep} {e : String}
    (lctx : LinterContext) (rest : List WalkStep) (linters : List String)
    (h : walkCb lctx linters s.path s.entry s.err = some e) :
    lintPackageFs lctx (s :: rest) linters = some e := by
  simp [lintPackageFs, h]

/-- A step whose callback passes lets the walk continue. -/
theorem lintPackageFs_cons_pass {s : WalkStep}
    (lctx : LinterContext) (rest : List WalkStep) (linters : List String)
    (h : walkCb lctx linters s.path s.entry s.err = none) :
    lintPackageFs lctx (s :: rest) linters = lintPackageFs lctx rest linters := by
  simp [lintPackageFs, h]

/-- If a block of steps all pass, the walk skips past it. -/
theorem lintPackageFs_append_of_none {pre : List WalkStep}
    (lctx : LinterContext) (rest : List WalkStep) (linters : List String)
    (h : lintPackageFs lctx pre linters = none) :
    lintPackageFs lctx (pre ++ rest) linters = lintPackageFs lctx rest linters := by
  induction pre with
  | nil => rfl
  | cons s t ih =>
    cases hw : walkCb lctx linters s.path s.entry s.err with
    | some e => rw [lintPackageFs_cons_fail lctx t linters hw] at h; cases h
    | none =>
      rw [lintPackageFs_cons_pass lctx t linters hw] at h
      rw [List.cons_append, lintPackageFs_cons_pass lctx (t ++ rest) linters hw]
      exact ih h

/-- Behaviour of the walk when the first failure is a check failure: any
passing prefix of the walk and any passing prefix of the check list are
skipped, and the error wrapped around the failing check is returned,
independent of the remaining steps and names. -/
theorem lintPackageFs_first_check_failure {name cause : String} {linter : Linter}
    (lctx : LinterContext) (pre post : List WalkStep) (path : String)
    (d : DirEntry) (lpre lrest : List String)
    (hpre : lintPackageFs lctx pre (lpre ++ name :: lrest) = none)
    (hlpre : runLinters lctx path d lpre = none)
    (hl : Linters name = some linter)
    (hf : linter.LinterFunc lctx path d = some cause) :
    lintPackageFs lctx (pre ++ ⟨path, d, none⟩ :: post) (lpre ++ name :: lrest) =
      some ("Linter " ++ name ++ " failed at path \"" ++ path ++ "\": " ++
        cause ++ "; suggest: " ++ linter.Explain) := by
  rw [lintPackageFs_append_of_none lctx _ _ hpre]
  apply lintPackageFs_cons_fail
  show runLinters lctx path d (lpre ++ name :: lrest) = _
  rw [runLinters_append_of_none lctx path d _ hlpre,
    runLinters_cons_fail lctx path d lrest hl hf]

/-! ### Claim theorems -/

/-- C2: an entry whose relative path starts with `usr/local/` makes the
`usrlocal` check fail with "/usr/local path found in non-compat package"
whenever the package name does not end in `-compat`; and when the package
name ends in `-compat`, the check passes on every path. -/
theorem usrLocalLinter_compat_exemption (lctx : LinterContext) (path : String)
    (d : DirEntry) :
    (strEndsWith "-compat" lctx.pkgname = false →
      strStartsWith "usr/local/" path = true →
      usrLocalLinter lctx path d = some "/usr/local path found in non-compat package")
    ∧ (strEndsWith "-compat" lctx.pkgname = true →
      usrLocalLinter lctx path d = none) := by
  constructor
  · intro hc hp
    simp [usrLocalLinter, isCompatPackage, isUsrLocalRegex, hc, hp]
  · intro hc
    simp [usrLocalLinter, isCompatPackage, hc]

/-- C2 witness: `usr/local/bin/x` fails in package `foo` and passes in
package `foo-compat`. -/
theorem usrLocalLinter_compat_exemption_witness :
    usrLocalLinter ⟨"foo", none, none⟩ "usr/local/bin/x" plainEntry
      = some "/usr/local path found in non-compat package"
    ∧ usrLocalLinter ⟨"foo-compat", none, none⟩ "usr/local/bin/x" plainEntry
      = none :=
  ⟨(usrLocalLinter_compat_exemption ⟨"foo", none, none⟩ "usr/local/bin/x"
      plainEntry).1 (by decide) (by decide),
   (usrLocalLinter_compat_exemption ⟨"foo-compat", none, none⟩ "usr/local/bin/x"
      plainEntry).2 (by decide)⟩

/-- C4: an entry with the setgid bit set fails the `setuidgid` check
regardless of the setuid bit; when additionally the setuid bit is clear the
message is "File is setgid"; with both bits clear the check passes. -/
theorem isSetUidOrGidLinter_setgid_fails (lctx : LinterContext) (path : String)
    (info : FileInfo) :
    (info.Mode &&& ModeSetgid ≠ 0 →
      (isSetUidOrGidLinter lctx path ⟨.ok info⟩).isSome = true)
    ∧ (info.Mode &&& ModeSetgid ≠ 0 → info.Mode &&& ModeSetuid = 0 →
      isSetUidOrGidLinter lctx path ⟨.ok info⟩ = some "File is setgid")
    ∧ (info.Mode &&& ModeSetuid = 0 → info.Mode &&& ModeSetgid = 0 →
      isSetUidOrGidLinter lctx path ⟨.ok info⟩ = none) := by
  refine ⟨?_, ?_, ?_⟩
  · intro hg
    by_cases hu : info.Mode &&& ModeSetuid = 0
    · simp [isSetUidOrGidLinter, hu, hg]
    · simp [isSetUidOrGidLinter, hu]
  · intro hg hu
    simp [isSetUidOrGidLinter, hu, hg]
  · intro hu hg
    simp [isSetUidOrGidLinter, hu, hg]

/-- C4 witness: mode `2^22` (setgid only) fails with "File is setgid";
mode `0` passes. -/
theorem isSetUidOrGidLinter_setgid_fails_witness :
    (isSetUidOrGidLinter ⟨"p", none, none⟩ "f" ⟨.ok ⟨4194304⟩⟩).isSome = true
    ∧ isSetUidOrGidLinter ⟨"p", none, none⟩ "f" ⟨.ok ⟨4194304⟩⟩
      = some "File is setgid"
    ∧ isSetUidOrGidLinter ⟨"p", none, none⟩ "f" ⟨.ok ⟨0⟩⟩ = none :=
  ⟨(isSetUidOrGidLinter_setgid_fails ⟨"p", none, none⟩ "f" ⟨4194304⟩).1
      (by decide),
   (isSetUidOrGidLinter_setgid_fails ⟨"p", none, none⟩ "f" ⟨4194304⟩).2.1
      (by decide) (by decide),
   (isSetUidOrGidLinter_setgid_fails ⟨"p", none, none⟩ "f" ⟨0⟩).2.2
      (by decide) (by decide)⟩

/-- C9: an entry with both the setuid and setgid bits set is reported as
"File is setuid", never as "File is setgid": the setuid branch takes
precedence. -/
theorem isSetUidOrGidLinter_setuid_precedence (lctx : LinterContext)
    (path : String) (info : FileInfo)
    (hu : info.Mode &&& ModeSetuid ≠ 0) (_hg : info.Mode &&& ModeSetgid ≠ 0) :
    isSetUidOrGidLinter lctx path ⟨.ok info⟩ = some "File is setuid"
    ∧ isSetUidOrGidLinter lctx path ⟨.ok info⟩ ≠ some "File is setgid" := by
  have h : isSetUidOrGidLinter lctx path ⟨.ok info⟩ = some "File is setuid" := by
    simp [isSetUidOrGidLinter, hu]
  refine ⟨h, ?_⟩
  rw [h]
  decide

/-- C9 witness: mode `2^23 + 2^22` (both bits) is reported as setuid. -/
theorem isSetUidOrGidLinter_setuid_precedence_witness :
    isSetUidOrGidLinter ⟨"p", none, none⟩ "f" ⟨.ok ⟨12582912⟩⟩
      = some "File is setuid"
    ∧ isSetUidOrGidLinter ⟨"p", none, none⟩ "f" ⟨.ok ⟨12582912⟩⟩
      ≠ some "File is setgid" :=
  isSetUidOrGidLinter_setuid_precedence ⟨"p", none, none⟩ "f" ⟨12582912⟩
    (by decide) (by decide)

/-- C6: the `tempdir` check fails with "Package writes to a temp dir"
exactly on paths starting with `tmp/`, `run/`, `var/tmp/` or `var/run/`,
and passes on every other path. -/
theorem tempDirLinter_iff_tempdir_path (lctx : LinterContext) (path : String)
    (d : DirEntry) :
    (tempDirLinter lctx path d = some "Package writes to a temp dir"
      ↔ (strStartsWith "tmp/" path = true ∨ strStartsWith "run/" path = true ∨
        strStartsWith "var/tmp/" path = true ∨
        strStartsWith "var/run/" path = true))
    ∧ (tempDirLinter lctx path d = none
      ↔ ¬(strStartsWith "tmp/" path = true ∨ strStartsWith "run/" path = true ∨
        strStartsWith "var/tmp/" path = true ∨
        strStartsWith "var/run/" path = true)) := by
  have hreg : isTempDirRegex path = true ↔
      (strStartsWith "tmp/" path = true ∨ strStartsWith "run/" path = true ∨
        strStartsWith "var/tmp/" path = true ∨
        strStartsWith "var/run/" path = true) := by
    simp [isTempDirRegex, Bool.or_eq_true, or_assoc]
  by_cases h : isTempDirRegex path = true
  · have hd := hreg.mp h
    simp [tempDirLinter, h, hd]
  · have hf : isTempDirRegex path = false := by
      cases hb : isTempDirRegex path
      · rfl
      · exact absurd hb h
    have hd : ¬(strStartsWith "tmp/" path = true ∨
        strStartsWith "run/" path = true ∨
        strStartsWith "var/tmp/" path = true ∨
        strStartsWith "var/run/" path = true) := fun hc => h (hreg.mpr hc)
    simp [tempDirLinter, hf, hd]

/-- C6 witness: `var/run/x` fails the `tempdir` check; `usr/tmp/x` passes. -/
theorem tempDirLinter_iff_tempdir_path_witness :
    tempDirLinter ⟨"p", none, none⟩ "var/run/x" plainEntry
      = some "Package writes to a temp dir"
    ∧ tempDirLinter ⟨"p", none, none⟩ "usr/tmp/x" plainEntry = none :=
  ⟨(tempDirLinter_iff_tempdir_path ⟨"p", none, none⟩ "var/run/x" plainEntry).1.mpr
      (by decide),
   (tempDirLinter_iff_tempdir_path ⟨"p", none, none⟩ "usr/tmp/x" plainEntry).2.mpr
      (by decide)⟩

/-- C8: the full default check set run over the empty tree (only the root
entry ".", with no setuid/setgid bits) succeeds, for any context. -/
theorem lintPackageFs_default_set_empty_tree (lctx : LinterContext) (mode : Nat)
    (hu : mode &&& ModeSetuid = 0) (hg : mode &&& ModeSetgid = 0) :
    lintPackageFs lctx [⟨".", ⟨.ok ⟨mode⟩⟩, none⟩]
      ["setuidgid", "tempdir", "usrlocal", "varempty"] = none := by
  have h1 : isSetUidOrGidLinter lctx "." ⟨.ok ⟨mode⟩⟩ = none := by
    simp [isSetUidOrGidLinter, hu, hg]
  have h2 : tempDirLinter lctx "." ⟨.ok ⟨mode⟩⟩ = none := by
    have hr : isTempDirRegex "." = false := by decide
    simp [tempDirLinter, hr]
  have h3 : usrLocalLinter lctx "." ⟨.ok ⟨mode⟩⟩ = none := by
    have hr : isUsrLocalRegex "." = false := by decide
    by_cases hc : isCompatPackage lctx.pkgname = true
    · simp [usrLocalLinter, hc]
    · simp [usrLocalLinter, hc, hr]
  have h4 : varEmptyLinter lctx "." ⟨.ok ⟨mode⟩⟩ = none := by
    have hr : isVarEmptyRegex "." = false := by decide
    simp [varEmptyLinter, hr]
  simp [lintPackageFs, walkCb, runLinters, Linters, h1, h2, h3, h4]

/-- C8 witness: the empty tree with mode 0 passes the default set. -/
theorem lintPackageFs_default_set_empty_tree_witness :
    lintPackageFs ⟨"x", none, none⟩ [⟨".", ⟨.ok ⟨0⟩⟩, none⟩]
      ["setuidgid", "tempdir", "usrlocal", "varempty"] = none :=
  lintPackageFs_default_set_empty_tree ⟨"x", none, none⟩ 0 (by decide) (by decide)

/-- C1: in a tree with policy violations at two distinct paths, the walk
returns exactly the error of the first-encountered violating (entry, check)
pair — checks taken in the caller-supplied order at the first violating
entry — and produces no error for the later violation. -/
theorem lintPackageFs_fail_fast_first_violation
    (lctx : LinterContext) (pre mid post2 post : List WalkStep)
    (path path2 : String) (d d2 : DirEntry) (lpre lrest : List String)
    (name cause : String) (linter : Linter)
    (name2 cause2 : String) (linter2 : Linter)
    (hpre : lintPackageFs lctx pre (lpre ++ name :: lrest) = none)
    (hlpre : runLinters lctx path d lpre = none)
    (hl : Linters name = some linter)
    (hf : linter.LinterFunc lctx path d = some cause)
    (hpost : post = mid ++ ⟨path2, d2, none⟩ :: post2)
    (_hdist : path2 ≠ path)
    (_hl2 : Linters name2 = some linter2)
    (_hf2 : linter2.LinterFunc lctx path2 d2 = some cause2)
    (_hmem2 : name2 ∈ lpre ++ name :: lrest) :
    lintPackageFs lctx (pre ++ ⟨path, d, none⟩ :: post) (lpre ++ name :: lrest)
      = some ("Linter " ++ name ++ " failed at path \"" ++ path ++ "\": " ++
        cause ++ "; suggest: " ++ linter.Explain) := by
  subst hpost
  exact lintPackageFs_first_check_failure lctx pre _ path d lpre lrest
    hpre hlpre hl hf

/-- C1 witness: a usrlocal violation at `usr/local/a` followed by a
varempty violation at `var/empty/b`; only the first is reported. -/
theorem lintPackageFs_fail_fast_first_violation_witness :
    lintPackageFs ⟨"foo", none, none⟩
      ([⟨".", plainEntry, none⟩] ++ ⟨"usr/local/a", plainEntry, none⟩ ::
        [⟨"var/empty/b", plainEntry, none⟩])
      ([] ++ "usrlocal" :: ["varempty"])
      = some ("Linter " ++ "usrlocal" ++ " failed at path \"" ++
        "usr/local/a" ++ "\": " ++
        "/usr/local path found in non-compat package" ++ "; suggest: " ++
        "This package should be a -compat package") :=
  lintPackageFs_fail_fast_first_violation ⟨"foo", none, none⟩
    [⟨".", plainEntry, none⟩] [] [] [⟨"var/empty/b", plainEntry, none⟩]
    "usr/local/a" "var/empty/b" plainEntry plainEntry [] ["varempty"]
    "usrlocal" "/usr/local path found in non-compat package"
    ⟨usrLocalLinter, "This package should be a -compat package"⟩
    "varempty" "Package writes to /var/empty"
    ⟨varEmptyLinter, "Remove any offending files in /var/empty in the pipeline"⟩
    (by decide) rfl rfl (by decide) rfl (by decide) rfl (by decide) (by decide)

/-- C5: the error reported for a failing check contains the check's name,
the entry's relative path, the underlying cause, and the check's registered
remediation hint. -/
theorem lintPackageFs_error_mentions_all_parts
    (lctx : LinterContext) (pre post : List WalkStep)
    (path : String) (d : DirEntry) (lpre lrest : List String)
    (name cause : String) (linter : Linter)
    (hpre : lintPackageFs lctx pre (lpre ++ name :: lrest) = none)
    (hlpre : runLinters lctx path d lpre = none)
    (hl : Linters name = some linter)
    (hf : linter.LinterFunc lctx path d = some cause) :
    ∃ e, lintPackageFs lctx (pre ++ ⟨path, d, none⟩ :: post)
        (lpre ++ name :: lrest) = some e
      ∧ strContains e name ∧ strContains e path ∧ strContains e cause
      ∧ strContains e linter.Explain := by
  refine ⟨_, lintPackageFs_first_check_failure lctx pre post path d lpre lrest
    hpre hlpre hl hf, ?_, ?_, ?_, ?_⟩
  · exact ⟨"Linter ", " failed at path \"" ++ path ++ "\": " ++ cause ++
      "; suggest: " ++ linter.Explain, by simp [String.append_assoc]⟩
  · exact ⟨"Linter " ++ name ++ " failed at path \"", "\": " ++ cause ++
      "; suggest: " ++ linter.Explain, by simp [String.append_assoc]⟩
  · exact ⟨"Linter " ++ name ++ " failed at path \"" ++ path ++ "\": ",
      "; suggest: " ++ linter.Explain, by simp [String.append_assoc]⟩
  · exact ⟨"Linter " ++ name ++ " failed at path \"" ++ path ++ "\": " ++
      cause ++ "; suggest: ", "",
      by simp [String.append_assoc, String.append_empty]⟩

/-- C5 witness: the error for the usrlocal failure at `usr/local/a`
contains the check name, the path, the cause and the hint. -/
theorem lintPackageFs_error_mentions_all_parts_witness :
    ∃ e, lintPackageFs ⟨"foo", none, none⟩
        ([] ++ ⟨"usr/local/a", plainEntry, none⟩ :: [])
        ([] ++ "usrlocal" :: []) = some e
      ∧ strContains e "usrlocal" ∧ strContains e "usr/local/a"
      ∧ strContains e "/usr/local path found in non-compat package"
      ∧ strContains e "This package should be a -compat package" :=
  lintPackageFs_error_mentions_all_parts ⟨"foo", none, none⟩ [] []
    "usr/local/a" plainEntry [] []
    "usrlocal" "/usr/local path found in non-compat package"
    ⟨usrLocalLinter, "This package should be a -compat package"⟩
    rfl rfl rfl (by decide)

/-- C7: a traversal-level error at some path makes the walk return an
error that names that path and wraps the underlying cause, whatever the
requested checks are, with no check run on that entry. -/
theorem lintPackageFs_traversal_error (lctx : LinterContext)
    (pre post : List WalkStep) (path cause : String) (d : DirEntry)
    (linters : List String)
    (hpre : lintPackageFs lctx pre linters = none) :
    lintPackageFs lctx (pre ++ ⟨path, d, some cause⟩ :: post) linters
      = some ("Error traversing tree at " ++ path ++ ": " ++ cause)
    ∧ strContains ("Error traversing tree at " ++ path ++ ": " ++ cause) path
    ∧ strContains ("Error traversing tree at " ++ path ++ ": " ++ cause)
        cause := by
  refine ⟨?_, ⟨"Error traversing tree at ", ": " ++ cause,
      by simp [String.append_assoc]⟩,
    ⟨"Error traversing tree at " ++ path ++ ": ", "",
      by simp [String.append_assoc, String.append_empty]⟩⟩
  rw [lintPackageFs_append_of_none lctx _ _ hpre]
  exact lintPackageFs_cons_fail lctx post linters rfl

/-- C7 witness: an unreadable path `var/a` is reported with its path and
cause even though the requested check list is empty. -/
theorem lintPackageFs_traversal_error_witness :
    lintPackageFs ⟨"p", none, none⟩
      ([] ++ ⟨"var/a", plainEntry, some "permission denied"⟩ :: []) []
      = some ("Error traversing tree at " ++ "var/a" ++ ": " ++
        "permission denied")
    ∧ strContains ("Error traversing tree at " ++ "var/a" ++ ": " ++
        "permission denied") "var/a"
    ∧ strContains ("Error traversing tree at " ++ "var/a" ++ ": " ++
        "permission denied") "permission denied" :=
  lintPackageFs_traversal_error ⟨"p", none, none⟩ [] [] "var/a"
    "permission denied" plainEntry [] rfl

/-- C3: a walk (always non-empty: `fs.WalkDir` visits at least the root)
with a check list containing a name missing from the registry never
returns success; and when the unknown-name lookup is the first failure,
the error identifies the bad name as an unknown linter. -/
theorem lintPackageFs_unknown_linter_error :
    (∀ (lctx : LinterContext) (step : WalkStep) (rest : List WalkStep)
        (linters : List String) (bad : String),
      bad ∈ linters → Linters bad = none →
      (lintPackageFs lctx (step :: rest) linters).isSome = true)
    ∧ (∀ (lctx : LinterContext) (pre post : List WalkStep) (path : String)
        (d : DirEntry) (lpre lrest : List String) (bad : String),
      lintPackageFs lctx pre (lpre ++ bad :: lrest) = none →
      runLinters lctx path d lpre = none →
      Linters bad = none →
      lintPackageFs lctx (pre ++ ⟨path, d, none⟩ :: post) (lpre ++ bad :: lrest)
        = some ("Linter " ++ bad ++ " is unknown")) := by
  constructor
  · intro lctx step rest linters bad hmem hbad
    obtain ⟨p, d, e⟩ := step
    cases e with
    | some cause =>
      rw [lintPackageFs_cons_fail lctx rest linters
        (show walkCb lctx linters p d (some cause) = _ from rfl)]
      rfl
    | none =>
      have hs := runLinters_isSome_of_unknown lctx p d hmem hbad
      obtain ⟨e, he⟩ := Option.isSome_iff_exists.mp hs
      rw [lintPackageFs_cons_fail lctx rest linters
        (show walkCb lctx linters p d none = some e from he)]
      rfl
  · intro lctx pre post path d lpre lrest bad hpre hlpre hbad
    rw [lintPackageFs_append_of_none lctx _ _ hpre]
    apply lintPackageFs_cons_fail
    show runLinters lctx path d (lpre ++ bad :: lrest) = _
    rw [runLinters_append_of_none lctx path d _ hlpre,
      runLinters_cons_unknown lctx path d lrest hbad]

/-- C3 witness: the unknown name "bogus" makes the run fail, and when it is
the first failure the error names it. -/
theorem lintPackageFs_unknown_linter_error_witness :
    (lintPackageFs ⟨"p", none, none⟩ [⟨".", plainEntry, none⟩]
      ["bogus"]).isSome = true
    ∧ lintPackageFs ⟨"p", none, none⟩ ([] ++ ⟨".", plainEntry, none⟩ :: [])
      ([] ++ "bogus" :: [])
      = some ("Linter " ++ "bogus" ++ " is unknown") :=
  ⟨lintPackageFs_unknown_linter_error.1 ⟨"p", none, none⟩
      ⟨".", plainEntry, none⟩ [] ["bogus"] "bogus" (by decide) rfl,
   lintPackageFs_unknown_linter_error.2 ⟨"p", none, none⟩ [] [] "."
      plainEntry [] [] "bogus" rfl rfl rfl⟩

/-- C10: the unknown-name lookup happens per visited entry: when, on the
first visited entry, a check listed before the unknown name fails, the walk
returns that check's failure and the unknown-name error is never
produced. -/
theorem lintPackageFs_early_check_beats_unknown
    (lctx : LinterContext) (rest : List WalkStep)
    (path : String) (d : DirEntry) (lpre lrest : List String)
    (name cause bad : String) (linter : Linter)
    (hlpre : runLinters lctx path d lpre = none)
    (hl : Linters name = some linter)
    (hf : linter.LinterFunc lctx path d = some cause)
    (_hmem : bad ∈ lrest) (_hbad : Linters bad = none) :
    lintPackageFs lctx (⟨path, d, none⟩ :: rest) (lpre ++ name :: lrest)
      = some ("Linter " ++ name ++ " failed at path \"" ++ path ++ "\": " ++
        cause ++ "; suggest: " ++ linter.Explain) :=
  lintPackageFs_first_check_failure lctx [] rest path d lpre lrest rfl
    hlpre hl hf

/-- C10 witness: "usrlocal" fails at `usr/local/x` before the unknown name
"bogus" is ever looked up; the result is the usrlocal failure. -/
theorem lintPackageFs_early_check_beats_unknown_witness :
    lintPackageFs ⟨"foo", none, none⟩ [⟨"usr/local/x", plainEntry, none⟩]
      ([] ++ "usrlocal" :: ["bogus"])
      = some ("Linter " ++ "usrlocal" ++ " failed at path \"" ++
        "usr/local/x" ++ "\": " ++
        "/usr/local path found in non-compat package" ++ "; suggest: " ++
        "This package should be a -compat package") :=
  lintPackageFs_early_check_beats_unknown ⟨"foo", none, none⟩ []
    "usr/local/x" plainEntry [] ["bogus"]
    "usrlocal" "/usr/local path found in non-compat package" "bogus"
    ⟨usrLocalLinter, "This package should be a -compat package"⟩
    rfl rfl (by decide) (by decide) rfl
